import Mathlib

/-!
Verification development for the ffmpeg_mcp repository (a Python MCP service
wrapping the ffmpeg command-line tools).  The repository has two source files,
`ffmpeg_mcp/main.py` (the tool functions actually registered on the server,
which define their own local helpers) and `ffmpeg_mcp/utils/utils.py`
(a helper module exporting variants of the same helpers, never actually
imported by `main.py`).  Both variants are embedded here where they differ.

The filesystem is modelled as a map from path strings to a `FileKind`
(mirroring what `os.path.isfile` / `os.path.exists` can observe), the external
process runner `subprocess.run` as a `SpawnResult` oracle (exit code with the
captured streams, or a raised exception), and Python dict results as a record
of optional fields.
-/

/-- What the filesystem holds at a given path, as observed by `os.path.isfile`
(true only on `regular`) and `os.path.exists` (true on anything but `absent`). -/
inductive FileKind where
  | regular
  | directory
  | otherKind
  | absent
  deriving DecidableEq, Repr

/-- Model of `os.path.isfile`: true iff the path names a regular file. -/
def os_path_isfile (fs : String → FileKind) (p : String) : Bool :=
  fs p = FileKind.regular

/-- Model of `os.path.exists`: true iff the path names anything at all. -/
def os_path_exists (fs : String → FileKind) (p : String) : Bool :=
  fs p ≠ FileKind.absent

/-- Decidable prefix test on character lists (the executable core of the
`^https?://` regex match used by `is_url`). -/
def isPrefixList : List Char → List Char → Bool
  | [], _ => true
  | _ :: _, [] => false
  | a :: as, b :: bs => a = b && isPrefixList as bs

/-- `is_url` from both `main.py` and `utils.py`: the regex
`^https?://` matched against the path, i.e. a prefix test for
`http://` or `https://`. -/
def is_url (path : String) : Bool :=
  isPrefixList "http://".toList path.toList || isPrefixList "https://".toList path.toList

/-- `check_file_exists` from both `main.py` and `utils.py`: a URL is reported
as not existing locally; otherwise defer to `os.path.isfile`. -/
def check_file_exists (fs : String → FileKind) (file_path : String) : Bool :=
  if is_url file_path then false else os_path_isfile fs file_path

/-- A Python dict result as returned by the tool functions: each key the code
ever sets is an optional field (`none` = key absent from the dict). -/
structure PyResult where
  success : Option Bool
  message : Option String
  output_path : Option String
  error : Option String
  stdout : Option String
  stderr : Option String
  deriving DecidableEq, Repr

/-- The dict `\x7b"error": e\x7d` that the validation and exception branches
of the tools return (note: it has no "success" key). -/
def errResult (e : String) : PyResult :=
  ⟨none, none, none, some e, none, none⟩

/-- Outcome of `subprocess.run(cmd, capture_output=True, text=True)`:
either a completed process with its exit code and captured streams, or an
exception raised while spawning/communicating (e.g. executable not found). -/
inductive SpawnResult where
  | ok (returncode : Int) (stdout stderr : String)
  | exn (msg : String)
  deriving DecidableEq, Repr

/-- Whether the spawn attempt raised. -/
def SpawnResult.isExn : SpawnResult → Bool
  | .ok _ _ _ => false
  | .exn _ => true

/-- `run_ffmpeg_command` (identical logic in `main.py` and `utils.py`):
exit code 0 gives a success dict carrying stdout/stderr; a non-zero exit gives
a failure dict whose error message embeds the captured stderr; an exception is
caught and turned into a failure dict (the function never propagates it). -/
def run_ffmpeg_command (r : SpawnResult) : PyResult :=
  match r with
  | .ok c out err =>
      if c = 0 then ⟨some true, none, none, none, some out, some err⟩
      else ⟨some false, none, none, some ("FFmpeg 命令执行错误: " ++ err), some out, some err⟩
  | .exn m => ⟨some false, none, none, some ("执行 FFmpeg 命令时出现异常: " ++ m), none, none⟩

/-- Split a character list on a separator character, mirroring Python
`str.split(sep)`: n separators yield n+1 (possibly empty) fields. -/
def splitOnChar (c : Char) : List Char → List (List Char)
  | [] => [[]]
  | x :: xs =>
      let r := splitOnChar c xs
      if x = c then [] :: r
      else
        match r with
        | [] => [[x]]
        | h :: t => (x :: h) :: t

/-- Join character lists with `/` (inverse of splitting on `/`). -/
def joinSlash : List (List Char) → List Char
  | [] => []
  | [x] => x
  | x :: xs => x ++ '/' :: joinSlash xs

/-- Model of `os.path.basename` for slash-separated paths: the part after the
last `/`. -/
def basename (p : String) : String :=
  String.mk ((splitOnChar '/' p.toList).getLastD [])

/-- Model of `os.path.dirname` for slash-separated paths: the part before the
last `/` (empty when there is no `/`). -/
def dirname (p : String) : String :=
  String.mk (joinSlash (splitOnChar '/' p.toList).dropLast)

/-- Model of the extension component of `os.path.splitext`: the suffix of the
basename from its last `.`, where leading dots of the basename never start an
extension (so `.bashrc` has none). -/
def splitext_ext (p : String) : String :=
  let b := (splitOnChar '/' p.toList).getLastD []
  let core := b.dropWhile (fun c => c = '.')
  match splitOnChar '.' core with
  | [] => ""
  | [_] => ""
  | parts => String.mk ('.' :: parts.getLastD [])

/-- The `directory` selector of `ensure_directory_exists` in `utils.py`
(line 68): treat the path as a file (and go to its parent) exactly when it has
an extension; the filesystem is never consulted. -/
def utils_ensure_target (path : String) : String :=
  if splitext_ext path ≠ "" then dirname path else path

/-- The `directory` selector of `ensure_directory_exists` in `main.py`
(line 40): treat the path as a file (and go to its parent) exactly when
`os.path.isfile` currently reports a regular file there. -/
def main_ensure_target (fs : String → FileKind) (path : String) : String :=
  if os_path_isfile fs path then dirname path else path

/-- `ensure_directory_exists` from `utils.py`: returns the directory that
`os.makedirs` is asked to create (`none` when the selected directory is empty
or already exists, in which case nothing is created). -/
def utils_ensure_directory_exists (fs : String → FileKind) (path : String) : Option String :=
  let directory := utils_ensure_target path
  if directory ≠ "" ∧ os_path_exists fs directory = false then some directory else none

/-- `ensure_directory_exists` from `main.py`: same creation rule, but the
file-vs-directory decision consults the live filesystem via `os.path.isfile`. -/
def main_ensure_directory_exists (fs : String → FileKind) (path : String) : Option String :=
  let directory := main_ensure_target fs path
  if directory ≠ "" ∧ os_path_exists fs directory = false then some directory else none

/-- Computation result that models a Python value-or-raised-exception. -/
inductive ExcResult (α : Type) where
  | ok (val : α)
  | raised (msg : String)
  deriving DecidableEq, Repr

/-- How a streamed HTTP fetch of a remote reference can go: full body
delivered; failure before the scratch file is opened (`requests.get` or
`raise_for_status` raised, no file on disk yet); or failure while streaming
chunks after `written` bytes reached the already-opened scratch file. -/
inductive FetchResult where
  | ok (content : List Nat)
  | failBefore (msg : String)
  | failDuring (written : List Nat) (msg : String)
  deriving DecidableEq, Repr

/-- Final state of one `download_video` call: the returned path or raised
error, plus the contents of the scratch file left on disk (`none` = no file). -/
structure DlOutcome where
  result : ExcResult String
  scratch : Option (List Nat)
  deriving DecidableEq, Repr

/-- `download_video` from `utils.py` (lines 80-100): on any fetch failure it
removes the partially written scratch file if present (best-effort: a failing
`os.remove` is swallowed, modelled by `removeOk = false`) and re-raises a
resolution error wrapping the cause. `path` stands for the freshly generated
scratch filename. -/
def utils_download_video (path : String) (fetch : FetchResult) (removeOk : Bool) : DlOutcome :=
  match fetch with
  | .ok content => ⟨.ok path, some content⟩
  | .failBefore m => ⟨.raised ("下载视频失败: " ++ m), none⟩
  | .failDuring written m =>
      ⟨.raised ("下载视频失败: " ++ m), if removeOk then none else some written⟩

/-- `download_video` from `main.py` (lines 57-85), the variant the tool
functions actually call: on a fetch failure it re-raises a wrapped error but
performs no cleanup, so a partially written scratch file stays on disk. -/
def main_download_video (path : String) (fetch : FetchResult) : DlOutcome :=
  match fetch with
  | .ok content => ⟨.ok path, some content⟩
  | .failBefore m => ⟨.raised ("下载视频失败: " ++ m), none⟩
  | .failDuring written m => ⟨.raised ("下载视频失败: " ++ m), some written⟩

/-- `ffmpeg_convert_video` from `main.py` (lines 199-241): validation error
and exception branches return a bare error dict (no "success" key); the
engine branches return success/failure dicts keyed on the exit code. A raised
exception anywhere in the body (modelled by `SpawnResult.exn`) is caught by
the outer handler. -/
def ffmpeg_convert_video (fs : String → FileKind) (input_path output_path : String)
    (spawn : SpawnResult) : PyResult :=
  if check_file_exists fs input_path = false then
    errResult ("输入文件不存在: " ++ input_path)
  else
    match spawn with
    | .ok c _ err =>
        if c = 0 then
          ⟨some true, some ("文件转换成功: " ++ output_path), some output_path, none, none, none⟩
        else
          ⟨some false, none, none, some ("FFmpeg 转换错误: " ++ err), none, none⟩
    | .exn m => errResult ("转换过程中出现异常: " ++ m)

/-- The ffmpeg argument vector built by `ffmpeg_convert_video`: the `-y`
overwrite flag is always present and the optional `-f` format flag is added
only when the caller supplied a format. -/
def convert_cmd (input_path output_path : String) (format : Option String) : List String :=
  ["ffmpeg", "-i", input_path, "-y"] ++
    (match format with
     | some f => ["-f", f]
     | none => []) ++ [output_path]

/-- The ffmpeg argument vector built by `ffmpeg_remove_watermark`
(`main.py` lines 360-364): delogo filter from the caller's coordinates, audio
copied through, `-y` overwrite flag, and the caller-supplied output path as
the final operand. -/
def remove_watermark_cmd (video_path output_path : String) (x y width height : Int) :
    List String :=
  ["ffmpeg", "-i", video_path,
   "-vf", "delogo=x=" ++ toString x ++ ":y=" ++ toString y ++
     ":w=" ++ toString width ++ ":h=" ++ toString height ++ ":show=0",
   "-c:a", "copy", "-y", output_path]

/-- `ffmpeg_remove_watermark` from `main.py` (lines 338-381): the output
location is exactly the caller-supplied `output_path`; the function derives no
generated filename and consults no randomness. -/
def ffmpeg_remove_watermark (fs : String → FileKind) (video_path output_path : String)
    (x y width height : Int) (spawn : SpawnResult) : PyResult :=
  if check_file_exists fs video_path = false then
    errResult ("视频文件不存在: " ++ video_path)
  else
    match spawn with
    | .ok c _ err =>
        if c = 0 then
          ⟨some true, some ("水印去除成功: " ++ output_path), some output_path, none, none, none⟩
        else
          ⟨some false, none, none, some ("FFmpeg 去除水印错误: " ++ err), none, none⟩
    | .exn m => errResult ("处理过程中出现异常: " ++ m)

/-- Digits-to-number parse of a character list (`none` unless the list is a
non-empty run of decimal digits). -/
def natOfDigits (cs : List Char) : Option Nat :=
  cs.foldl
    (fun acc c =>
      match acc with
      | none => none
      | some n => if c.isDigit then some (n * 10 + (c.toNat - 48)) else none)
    (if cs.isEmpty then none else some 0)

/-- Integer parse of a character list: an optional leading minus sign then
digits. -/
def intOfChars (cs : List Char) : Option Int :=
  match cs with
  | '-' :: rest => (natOfDigits rest).map (fun n => -(n : Int))
  | _ => (natOfDigits cs).map (fun n => (n : Int))

/-- Model of Python `eval` restricted to the integer-fraction strings reached
from `r_frame_rate`: an `a/b` string with integer literals evaluates to the
true-division value (a rational, matching Python's float division on the
magnitudes involved) and raises `ZeroDivisionError` when `b = 0`; any other
string containing `/` is modelled as raising (`none`). -/
def python_eval_fraction (s : String) : Option Rat :=
  match splitOnChar '/' s.toList with
  | [a, b] =>
      match intOfChars a, intOfChars b with
      | some x, some y => if y = 0 then none else some ((x : Rat) / (y : Rat))
      | _, _ => none
  | _ => none

/-- Result of computing the `fps` field for one video stream: a value, or an
exception raised by `eval` (carrying the offending string). -/
def stream_fps (r_frame_rate : Option String) : ExcResult Rat :=
  if (r_frame_rate.getD "0/1").toList.contains '/' then
    match python_eval_fraction (r_frame_rate.getD "0/1") with
    | some q => ExcResult.ok q
    | none => ExcResult.raised (r_frame_rate.getD "0/1")
  else ExcResult.ok 0

/-- The per-stream slice of the probe JSON that the fps computation reads. -/
structure ProbeStream where
  codec_type : String
  r_frame_rate : Option String
  deriving DecidableEq, Repr

/-- The fps values collected over the stream list by the loop in
`ffmpeg_get_video_info`; the first raising video stream aborts the loop with
its exception. -/
def streams_fps : List ProbeStream → ExcResult (List Rat)
  | [] => ExcResult.ok []
  | s :: rest =>
      if s.codec_type = "video" then
        match stream_fps s.r_frame_rate with
        | ExcResult.ok q =>
            match streams_fps rest with
            | ExcResult.ok l => ExcResult.ok (q :: l)
            | ExcResult.raised m => ExcResult.raised m
        | ExcResult.raised m => ExcResult.raised m
      else streams_fps rest

/-- The slice of the `ffmpeg_get_video_info` result dict the claims are about:
its success flag, its error string, and the fps values of the video streams
(`none` when the info payload was never built). -/
structure InfoResult where
  success : Option Bool
  error : Option String
  fps : Option (List Rat)
  deriving DecidableEq, Repr

/-- `ffmpeg_get_video_info` from `main.py` (lines 384-455): validation and
exception branches give a bare error dict; a non-zero probe exit gives a
failure dict; on exit 0 the streams are projected, and an exception raised by
the fps `eval` of any video stream escapes the loop into the outer handler,
failing the whole inspection. The parsed probe JSON is abstracted as the
`streams` argument. -/
def ffmpeg_get_video_info (fs : String → FileKind) (video_path : String)
    (probe : SpawnResult) (streams : List ProbeStream) : InfoResult :=
  if check_file_exists fs video_path = false then
    ⟨none, some ("视频文件不存在: " ++ video_path), none⟩
  else
    match probe with
    | .ok c _ err =>
        if c = 0 then
          match streams_fps streams with
          | ExcResult.ok l => ⟨some true, none, some l⟩
          | ExcResult.raised m => ⟨none, some ("处理过程中出现异常: " ++ m), none⟩
        else ⟨some false, some ("获取视频信息失败: " ++ err), none⟩
    | .exn m => ⟨none, some ("处理过程中出现异常: " ++ m), none⟩

/-- How far `ffmpeg_concat_videos` gets before the external engine would run:
a validation error returned early, or an engine invocation with the assembled
argument vector. -/
inductive ConcatStep where
  | validationError (msg : String)
  | engineInvoked (cmd : List String)
  deriving DecidableEq, Repr

/-- The manifest lines `ffmpeg_concat_videos` writes for the concat demuxer
(`abspath` models `os.path.abspath`). -/
def concat_manifest (abspath : String → String) (paths : List String) : List String :=
  paths.map (fun p => "file '" ++ abspath p ++ "'")

/-- The ffmpeg argument vector built by `ffmpeg_concat_videos` around the
manifest file. -/
def concat_cmd (manifestName output_path : String) : List String :=
  ["ffmpeg", "-f", "concat", "-safe", "0", "-i", manifestName,
   "-c:v", "libx264", "-preset", "medium", "-c:a", "aac", "-y", output_path]

/-- `ffmpeg_concat_videos` from `main.py` (lines 458-521), up to the engine
call: first every input is checked with `check_file_exists` (missing ones
fail validation), then the at-least-two-inputs rule is enforced, and only
then is the engine command assembled. -/
def ffmpeg_concat_videos (fs : String → FileKind) (video_paths : List String)
    (output_path manifestName : String) : ConcatStep :=
  let missing := video_paths.filter (fun p => check_file_exists fs p = false)
  if missing ≠ [] then
    ConcatStep.validationError ("以下视频文件不存在: " ++ String.intercalate ", " missing)
  else if video_paths.length < 2 then
    ConcatStep.validationError "至少需要两个视频文件才能进行合成"
  else
    ConcatStep.engineInvoked (concat_cmd manifestName output_path)

/-- What the network transport does with one inbound request, as observed by
the caller: rejected at the gate, or the tool executed with its result. -/
inductive RequestOutcome where
  | unauthorized
  | toolExecuted (r : PyResult)
  deriving DecidableEq, Repr

/-- Modelled from the spec: the Access Gate of the network transport. The
sources here contain only the ungated network entrypoint `serve_host`
(`main.py` lines 535-544); the gate itself — "an optional shared-secret
string, empty/absent meaning gate disabled; on each inbound request read a
designated header; if the gate is enabled and the header is missing or does
not exactly equal the configured secret, short-circuit with an unauthorized
response" — is not among the source files, so it is modelled from those
words. `true` means the request may proceed. -/
def access_gate_allows (secret : Option String) (header : Option String) : Bool :=
  match secret with
  | none => true
  | some s =>
      if s = "" then true
      else
        match header with
        | none => false
        | some h => h = s

/-- Modelled from the spec: one inbound request through the Access Gate. A
rejected request yields `unauthorized` and by construction carries no tool
result — the tool-executor logic is never reached. -/
def serve_request (secret header : Option String) (tool : PyResult) : RequestOutcome :=
  if access_gate_allows secret header then RequestOutcome.toolExecuted tool
  else RequestOutcome.unauthorized

/-- "Success with output path": the dict claims success and carries an output
path but no error string. -/
def successWithPath (r : PyResult) : Prop :=
  r.success = some true ∧ r.output_path.isSome = true ∧ r.error = none

/-- "Failure with error message": the dict carries an error string, no output
path, and does not claim success. -/
def failureWithError (r : PyResult) : Prop :=
  r.error.isSome = true ∧ r.output_path = none ∧ r.success ≠ some true

instance (r : PyResult) : Decidable (successWithPath r) := by
  unfold successWithPath
  infer_instance

instance (r : PyResult) : Decidable (failureWithError r) := by
  unfold failureWithError
  infer_instance

/-- Claim C6: a reference that syntactically matches the remote-scheme prefix
`http://` or `https://` is never reported as locally existing by
`check_file_exists`, whatever the filesystem holds at that exact name. -/
theorem c6_url_never_local (fs : String → FileKind) (p : String)
    (h : is_url p = true) : check_file_exists fs p = false := by
  unfold check_file_exists
  simp [h]

/-- Witness for C6: the URL "http://example.com/a.mp4" is reported as not
locally existing even on a filesystem where every path is a regular file. -/
theorem c6_url_never_local_witness :
    is_url "http://example.com/a.mp4" = true ∧
    check_file_exists (fun _ => FileKind.regular) "http://example.com/a.mp4" = false := by
  exact ⟨by decide, c6_url_never_local (fun _ => FileKind.regular) "http://example.com/a.mp4" (by decide)⟩

/-- Counterexample to claim C8: the `ensure_directory_exists` of `main.py`
(the one the tool functions call) does not decide by extension. On a filesystem
where nothing exists yet, the extensioned path "out/video.mp4" is not treated
as a file: the full path itself is created as a directory instead of only its
parent "out", and the decision flips once a regular file exists at that path —
so it is not independent of filesystem state. -/
theorem c8_counterexample :
    splitext_ext "out/video.mp4" ≠ "" ∧
    main_ensure_directory_exists (fun _ => FileKind.absent) "out/video.mp4" =
      some "out/video.mp4" ∧
    main_ensure_directory_exists (fun _ => FileKind.absent) "out/video.mp4" ≠
      some (dirname "out/video.mp4") ∧
    main_ensure_directory_exists
      (fun p => if p = "out/video.mp4" then FileKind.regular else FileKind.absent)
      "out/video.mp4" = some "out" := by
  exact ⟨by decide, by decide, by decide, by decide⟩

/-- Claim C8 as amended: the `utils.py` variant decides file-vs-directory
purely by presence of an extension (with an extension it targets only the
parent directory, without one it targets the path itself), independent of the
filesystem; the `main.py` variant instead decides by whether the path
currently is a regular file, so a not-yet-existing file path is itself created
as a directory. -/
theorem c8_ensure_directory_amended (fs : String → FileKind) (path : String) :
    (splitext_ext path ≠ "" → utils_ensure_target path = dirname path) ∧
    (splitext_ext path = "" → utils_ensure_target path = path) ∧
    (os_path_isfile fs path = true → main_ensure_target fs path = dirname path) ∧
    (os_path_isfile fs path = false → main_ensure_target fs path = path) := by
  refine ⟨fun h => ?_, fun h => ?_, fun h => ?_, fun h => ?_⟩
  · simp [utils_ensure_target, h]
  · simp [utils_ensure_target, h]
  · simp [main_ensure_target, h]
  · simp [main_ensure_target, h]

/-- Witness for the amended C8, at the concrete paths "out/video.mp4"
(extensioned / regular file) and "outdir" (no extension / absent). -/
theorem c8_ensure_directory_amended_witness :
    utils_ensure_target "out/video.mp4" = dirname "out/video.mp4" ∧
    utils_ensure_target "outdir" = "outdir" ∧
    main_ensure_target (fun _ => FileKind.regular) "out/video.mp4" = dirname "out/video.mp4" ∧
    main_ensure_target (fun _ => FileKind.absent) "outdir" = "outdir" :=
  ⟨(c8_ensure_directory_amended (fun _ => FileKind.regular) "out/video.mp4").1 (by decide),
   (c8_ensure_directory_amended (fun _ => FileKind.regular) "outdir").2.1 (by decide),
   (c8_ensure_directory_amended (fun _ => FileKind.regular) "out/video.mp4").2.2.1 (by decide),
   (c8_ensure_directory_amended (fun _ => FileKind.absent) "outdir").2.2.2 (by decide)⟩

/-- Counterexample to claim C4: the `download_video` of `main.py` — the one the
tool functions call — performs no cleanup on a streaming failure: after a fetch
that dies mid-stream with one byte written, the raised resolution error leaves
a non-empty scratch file orphaned on disk. -/
theorem c4_counterexample :
    (main_download_video "temp/video_ab12.mp4"
        (FetchResult.failDuring [1] "connection reset")).scratch = some [1] ∧
    (main_download_video "temp/video_ab12.mp4"
        (FetchResult.failDuring [1] "connection reset")).result =
      ExcResult.raised "下载视频失败: connection reset" ∧
    ([1] : List Nat) ≠ [] := by
  exact ⟨by decide, by decide, by decide⟩

/-- Claim C4 as amended: the `utils.py` download deletes the partial scratch
file best-effort on any fetch failure (no file is left when removal succeeds;
a failing removal is swallowed and the same wrapped error still propagates,
carrying the underlying cause), while the duplicate download in `main.py`,
which the tool functions actually call, propagates the wrapped error but
always leaves the partially written scratch file in place. -/
theorem c4_download_cleanup_amended (path m : String) (w c : List Nat) :
    utils_download_video path (FetchResult.failBefore m) true =
      ⟨ExcResult.raised ("下载视频失败: " ++ m), none⟩ ∧
    utils_download_video path (FetchResult.failBefore m) false =
      ⟨ExcResult.raised ("下载视频失败: " ++ m), none⟩ ∧
    utils_download_video path (FetchResult.failDuring w m) true =
      ⟨ExcResult.raised ("下载视频失败: " ++ m), none⟩ ∧
    (utils_download_video path (FetchResult.failDuring w m) false).result =
      ExcResult.raised ("下载视频失败: " ++ m) ∧
    utils_download_video path (FetchResult.ok c) true = ⟨ExcResult.ok path, some c⟩ ∧
    main_download_video path (FetchResult.failDuring w m) =
      ⟨ExcResult.raised ("下载视频失败: " ++ m), some w⟩ := by
  refine ⟨rfl, rfl, by simp [utils_download_video], rfl, rfl, rfl⟩

/-- Claim C7: the command executor succeeds exactly on exit code zero (carrying
the captured streams), embeds the captured stderr in the error message on a
non-zero exit (still carrying both streams), and converts a raised exception
into a failure dict instead of propagating it (`run_ffmpeg_command` is a total
function into `PyResult`). -/
theorem c7_run_ffmpeg_command_outcomes :
    (∀ (c : Int) (out err : String),
      run_ffmpeg_command (SpawnResult.ok c out err) =
        (if c = 0 then ⟨some true, none, none, none, some out, some err⟩
         else ⟨some false, none, none, some ("FFmpeg 命令执行错误: " ++ err), some out, some err⟩)) ∧
    (∀ m : String,
      run_ffmpeg_command (SpawnResult.exn m) =
        ⟨some false, none, none, some ("执行 FFmpeg 命令时出现异常: " ++ m), none, none⟩) ∧
    (∀ r : SpawnResult,
      (run_ffmpeg_command r).success = some true ↔
        ∃ out err, r = SpawnResult.ok 0 out err) := by
  refine ⟨fun c out err => rfl, fun m => rfl, fun r => ?_⟩
  cases r with
  | ok c out err =>
      by_cases hc : c = 0
      · subst hc
        simp [run_ffmpeg_command]
      · simp [run_ffmpeg_command, hc]
  | exn m =>
      simp [run_ffmpeg_command]

/-- Counterexample to claim C1: `ffmpeg_remove_watermark` writes to the
caller-supplied output path verbatim. The operation is a deterministic
function of its arguments, so a second run with identical parameters produces
the same artifact name "out.mp4" — not a distinct file with a different
random suffix — and the assembled command carries the `-y` overwrite flag
with that same path as its final operand, so the second run overwrites the
first artifact. -/
theorem c1_counterexample :
    (ffmpeg_remove_watermark
        (fun p => if p = "in.mp4" then FileKind.regular else FileKind.absent)
        "in.mp4" "out.mp4" 590 1200 100 40 (SpawnResult.ok 0 "" "")).output_path =
      some "out.mp4" ∧
    (ffmpeg_remove_watermark
        (fun p => if p = "in.mp4" then FileKind.regular else FileKind.absent)
        "in.mp4" "out.mp4" 590 1200 100 40 (SpawnResult.ok 0 "" "")).success = some true ∧
    remove_watermark_cmd "in.mp4" "out.mp4" 590 1200 100 40 =
      ["ffmpeg", "-i", "in.mp4", "-vf", "delogo=x=590:y=1200:w=100:h=40:show=0",
       "-c:a", "copy", "-y", "out.mp4"] := by
  exact ⟨by decide, by decide, by decide⟩

/-- Claim C1 as amended: every successful watermark-removal run reports
exactly the caller-supplied output path as its artifact (no generated name,
no random suffix — the result is a pure function of the arguments), and the
assembled ffmpeg command always carries the `-y` overwrite flag with that
path as the final operand, so a repeated run with identical parameters
targets and overwrites the first run's artifact. -/
theorem c1_watermark_output_amended (fs : String → FileKind)
    (video_path output_path : String) (x y width height : Int) (out err : String)
    (hc : check_file_exists fs video_path = true) :
    (ffmpeg_remove_watermark fs video_path output_path x y width height
        (SpawnResult.ok 0 out err)).output_path = some output_path ∧
    (remove_watermark_cmd video_path output_path x y width height).getLastD "" =
      output_path ∧
    "-y" ∈ remove_watermark_cmd video_path output_path x y width height := by
  refine ⟨?_, rfl, ?_⟩
  · unfold ffmpeg_remove_watermark
    simp [hc]
  · simp [remove_watermark_cmd]

/-- Witness for the amended C1 at a concrete filesystem and parameter set. -/
theorem c1_watermark_output_amended_witness :
    (ffmpeg_remove_watermark (fun _ => FileKind.regular)
        "clip.mp4" "clean.mp4" 590 1200 100 40 (SpawnResult.ok 0 "" "")).output_path =
      some "clean.mp4" ∧
    (remove_watermark_cmd "clip.mp4" "clean.mp4" 590 1200 100 40).getLastD "" = "clean.mp4" ∧
    "-y" ∈ remove_watermark_cmd "clip.mp4" "clean.mp4" 590 1200 100 40 :=
  c1_watermark_output_amended (fun _ => FileKind.regular) "clip.mp4" "clean.mp4"
    590 1200 100 40 "" "" (by decide)

/-- Claim C2 (Access Gate modelled from the spec): with a non-empty shared
secret configured, any request whose header is missing or differs from the
secret is rejected as unauthorized (the outcome carries no tool result, i.e.
the tool executor is never reached); with no secret configured every request
is accepted; a matching header passes the gate. -/
theorem c2_access_gate (s : String) (hs : s ≠ "") (header : Option String)
    (hh : header ≠ some s) (tool : PyResult) :
    serve_request (some s) header tool = RequestOutcome.unauthorized ∧
    (∀ (h2 : Option String) (t2 : PyResult),
      serve_request none h2 t2 = RequestOutcome.toolExecuted t2) ∧
    serve_request (some s) (some s) tool = RequestOutcome.toolExecuted tool := by
  refine ⟨?_, fun h2 t2 => rfl, ?_⟩
  · unfold serve_request access_gate_allows
    cases header with
    | none => simp [hs]
    | some h =>
        have hne : h ≠ s := fun he => hh (by rw [he])
        simp [hs, hne]
  · unfold serve_request access_gate_allows
    simp [hs]

/-- Witness for C2: with secret "secret123" a headerless request is rejected,
and with no secret configured the same request reaches the tool. -/
theorem c2_access_gate_witness :
    serve_request (some "secret123") none (errResult "x") = RequestOutcome.unauthorized ∧
    serve_request none none (errResult "x") = RequestOutcome.toolExecuted (errResult "x") :=
  ⟨(c2_access_gate "secret123" (by decide) none (by decide) (errResult "x")).1,
   (c2_access_gate "secret123" (by decide) none (by decide) (errResult "x")).2.1
     none (errResult "x")⟩

/-- Counterexample to claim C3: the fps field is computed with Python `eval`,
so `r_frame_rate = "0/0"` raises `ZeroDivisionError` instead of yielding 0,
and the exception escapes to the outer handler: the whole inspection of an
otherwise healthy probe returns an error dict (no success flag, no info). -/
theorem c3_counterexample :
    stream_fps (some "0/0") = ExcResult.raised "0/0" ∧
    ffmpeg_get_video_info
        (fun p => if p = "v.mp4" then FileKind.regular else FileKind.absent)
        "v.mp4" (SpawnResult.ok 0 "" "") [⟨"video", some "0/0"⟩] =
      ⟨none, some "处理过程中出现异常: 0/0", none⟩ := by
  exact ⟨by decide, by decide⟩

/-- Claim C3 as amended: `"30/1"` yields fps 30; a missing `r_frame_rate` or
any string without `/` yields fps 0; but a fraction with zero denominator
such as `"0/0"` (and any other string containing `/` that `eval` cannot
divide) raises, and the raised exception makes the whole inspection return an
error dict rather than fps 0. -/
theorem python_eval_fraction_of_30_1 : python_eval_fraction "30/1" = some (30 : Rat) := by
  have h : python_eval_fraction "30/1" =
      some (((30 : Int) : Rat) / ((1 : Int) : Rat)) := rfl
  rw [h]
  norm_num

theorem python_eval_fraction_of_0_1 : python_eval_fraction "0/1" = some (0 : Rat) := by
  have h : python_eval_fraction "0/1" =
      some (((0 : Int) : Rat) / ((1 : Int) : Rat)) := rfl
  rw [h]
  norm_num

theorem c3_fps_parsing_amended (s : String) (hns : s.toList.contains '/' = false) :
    stream_fps (some "30/1") = ExcResult.ok 30 ∧
    stream_fps (some s) = ExcResult.ok 0 ∧
    stream_fps none = ExcResult.ok 0 ∧
    stream_fps (some "0/0") = ExcResult.raised "0/0" ∧
    (∀ (fs : String → FileKind) (video_path out err : String) (rest : List ProbeStream),
      check_file_exists fs video_path = true →
      ffmpeg_get_video_info fs video_path (SpawnResult.ok 0 out err)
          (⟨"video", some "0/0"⟩ :: rest) =
        ⟨none, some "处理过程中出现异常: 0/0", none⟩) := by
  refine ⟨?_, ?_, ?_, by decide, ?_⟩
  · unfold stream_fps
    rw [Option.getD_some,
      show ("30/1".toList.contains '/') = true from by decide,
      python_eval_fraction_of_30_1]
    simp
  · unfold stream_fps
    rw [Option.getD_some, hns]
    simp
  · unfold stream_fps
    rw [show ((none : Option String).getD "0/1") = "0/1" from rfl,
      show ("0/1".toList.contains '/') = true from by decide,
      python_eval_fraction_of_0_1]
    simp
  · intro fs video_path out err rest hcheck
    have hsf : streams_fps (⟨"video", some "0/0"⟩ :: rest) = ExcResult.raised "0/0" := by
      unfold streams_fps
      rw [show stream_fps (some "0/0") = ExcResult.raised "0/0" from by decide]
      simp
    unfold ffmpeg_get_video_info
    rw [hcheck, hsf]
    simp

/-- Witness for the amended C3 at the concrete non-fraction string "abc" and
a concrete probe whose video stream reports "0/0". -/
theorem c3_fps_parsing_amended_witness :
    stream_fps (some "abc") = ExcResult.ok 0 ∧
    ffmpeg_get_video_info (fun _ => FileKind.regular) "w.mp4"
        (SpawnResult.ok 0 "" "") [⟨"video", some "0/0"⟩] =
      ⟨none, some "处理过程中出现异常: 0/0", none⟩ :=
  ⟨(c3_fps_parsing_amended "abc" (by decide)).2.1,
   (c3_fps_parsing_amended "abc" (by decide)).2.2.2.2
     (fun _ => FileKind.regular) "w.mp4" "" "" [] (by decide)⟩

/-- Counterexample to claim C5: the validation-error result of
`ffmpeg_convert_video` for a nonexistent input is a dict holding only an
error string — it carries no success indicator at all. -/
theorem c5_counterexample :
    (ffmpeg_convert_video (fun _ => FileKind.absent) "in.mp4" "out.mp4"
        (SpawnResult.ok 0 "" "")).success = none ∧
    (ffmpeg_convert_video (fun _ => FileKind.absent) "in.mp4" "out.mp4"
        (SpawnResult.ok 0 "" "")).error = some "输入文件不存在: in.mp4" := by
  exact ⟨by decide, by decide⟩

/-- Claim C5 as amended: every result of the conversion tool satisfies exactly
one of "success with output path" and "failure with error message", but the
explicit success indicator is present exactly on the results of the
engine-invocation path — validation-error and caught-exception results carry
only the error string, with no "success" key. -/
theorem c5_result_shape_amended (fs : String → FileKind)
    (input_path output_path : String) (spawn : SpawnResult) :
    ((successWithPath (ffmpeg_convert_video fs input_path output_path spawn) ∧
      ¬ failureWithError (ffmpeg_convert_video fs input_path output_path spawn)) ∨
     (¬ successWithPath (ffmpeg_convert_video fs input_path output_path spawn) ∧
      failureWithError (ffmpeg_convert_video fs input_path output_path spawn))) ∧
    ((ffmpeg_convert_video fs input_path output_path spawn).success.isSome = true ↔
      (check_file_exists fs input_path = true ∧ spawn.isExn = false)) := by
  unfold ffmpeg_convert_video
  by_cases hc : check_file_exists fs input_path = false
  · simp [hc, successWithPath, failureWithError, errResult]
  · have hct : check_file_exists fs input_path = true := by
      revert hc
      cases check_file_exists fs input_path <;> simp
    cases spawn with
    | ok c out err =>
        by_cases h0 : c = 0
        · subst h0
          simp [hct, successWithPath, failureWithError, SpawnResult.isExn]
        · simp [hct, h0, successWithPath, failureWithError, SpawnResult.isExn]
    | exn m =>
        simp [hct, successWithPath, failureWithError, errResult, SpawnResult.isExn]

/-- Claim C9: concatenation invoked with fewer than two input references
always stops at a validation error; the assembled engine command is never
reached. -/
theorem c9_concat_underflow (fs : String → FileKind) (video_paths : List String)
    (output_path manifestName : String) (h : video_paths.length < 2) :
    (∃ m, ffmpeg_concat_videos fs video_paths output_path manifestName =
      ConcatStep.validationError m) ∧
    ∀ cmd, ffmpeg_concat_videos fs video_paths output_path manifestName ≠
      ConcatStep.engineInvoked cmd := by
  unfold ffmpeg_concat_videos
  by_cases hm : (video_paths.filter fun p => check_file_exists fs p = false) ≠ []
  · rw [if_pos hm]
    exact ⟨⟨_, rfl⟩, fun cmd hcmd => ConcatStep.noConfusion hcmd⟩
  · rw [if_neg hm, if_pos h]
    exact ⟨⟨_, rfl⟩, fun cmd hcmd => ConcatStep.noConfusion hcmd⟩

/-- Witness for C9: a single existing input fails validation and never reaches
the engine. -/
theorem c9_concat_underflow_witness :
    (∃ m, ffmpeg_concat_videos (fun _ => FileKind.regular) ["a.mp4"] "out.mp4" "list.txt" =
      ConcatStep.validationError m) ∧
    ∀ cmd, ffmpeg_concat_videos (fun _ => FileKind.regular) ["a.mp4"] "out.mp4" "list.txt" ≠
      ConcatStep.engineInvoked cmd :=
  c9_concat_underflow (fun _ => FileKind.regular) ["a.mp4"] "out.mp4" "list.txt" (by decide)

/-- Claim C10: a non-URL reference naming anything but a regular file (a
directory, a special file, or nothing) fails `check_file_exists`, so the
tools report it with their "file does not exist" validation error instead of
processing it. -/
theorem c10_nonregular_rejected (fs : String → FileKind) (p : String)
    (hreg : fs p ≠ FileKind.regular) (output_path : String) (x y width height : Int)
    (spawn : SpawnResult) (streams : List ProbeStream) :
    check_file_exists fs p = false ∧
    ffmpeg_convert_video fs p output_path spawn = errResult ("输入文件不存在: " ++ p) ∧
    ffmpeg_remove_watermark fs p output_path x y width height spawn =
      errResult ("视频文件不存在: " ++ p) ∧
    ffmpeg_get_video_info fs p spawn streams =
      ⟨none, some ("视频文件不存在: " ++ p), none⟩ := by
  have hcheck : check_file_exists fs p = false := by
    unfold check_file_exists os_path_isfile
    by_cases hu : is_url p
    · simp [hu]
    · simp [hu, hreg]
  refine ⟨hcheck, ?_, ?_, ?_⟩
  · unfold ffmpeg_convert_video
    rw [hcheck]
    simp
  · unfold ffmpeg_remove_watermark
    rw [hcheck]
    simp
  · unfold ffmpeg_get_video_info
    rw [hcheck]
    simp

/-- Witness for C10: an existing directory "videos" is reported as
nonexistent by the conversion, watermark and inspection tools. -/
theorem c10_nonregular_rejected_witness :
    check_file_exists (fun _ => FileKind.directory) "videos" = false ∧
    ffmpeg_convert_video (fun _ => FileKind.directory) "videos" "out.mp4"
        (SpawnResult.ok 0 "" "") = errResult "输入文件不存在: videos" ∧
    ffmpeg_remove_watermark (fun _ => FileKind.directory) "videos" "out.mp4"
        590 1200 100 40 (SpawnResult.ok 0 "" "") = errResult "视频文件不存在: videos" ∧
    ffmpeg_get_video_info (fun _ => FileKind.directory) "videos"
        (SpawnResult.ok 0 "" "") [] = ⟨none, some "视频文件不存在: videos", none⟩ :=
  c10_nonregular_rejected (fun _ => FileKind.directory) "videos" (by decide)
    "out.mp4" 590 1200 100 40 (SpawnResult.ok 0 "" "") []

/-- Witness for the amended C4 at concrete scratch contents and error text. -/
theorem c4_download_cleanup_amended_witness :
    utils_download_video "temp/video_cd34.mp4" (FetchResult.failDuring [7] "timeout") true =
      ⟨ExcResult.raised "下载视频失败: timeout", none⟩ ∧
    main_download_video "temp/video_cd34.mp4" (FetchResult.failDuring [7] "timeout") =
      ⟨ExcResult.raised "下载视频失败: timeout", some [7]⟩ :=
  ⟨(c4_download_cleanup_amended "temp/video_cd34.mp4" "timeout" [7] [1]).2.2.1,
   (c4_download_cleanup_amended "temp/video_cd34.mp4" "timeout" [7] [1]).2.2.2.2.2⟩

/-- Witness for the amended C5 at a concrete successful conversion. -/
theorem c5_result_shape_amended_witness :
    ((successWithPath (ffmpeg_convert_video (fun _ => FileKind.regular) "a.mp4" "b.mp4"
          (SpawnResult.ok 0 "" "")) ∧
      ¬ failureWithError (ffmpeg_convert_video (fun _ => FileKind.regular) "a.mp4" "b.mp4"
          (SpawnResult.ok 0 "" ""))) ∨
     (¬ successWithPath (ffmpeg_convert_video (fun _ => FileKind.regular) "a.mp4" "b.mp4"
          (SpawnResult.ok 0 "" "")) ∧
      failureWithError (ffmpeg_convert_video (fun _ => FileKind.regular) "a.mp4" "b.mp4"
          (SpawnResult.ok 0 "" "")))) ∧
    ((ffmpeg_convert_video (fun _ => FileKind.regular) "a.mp4" "b.mp4"
        (SpawnResult.ok 0 "" "")).success.isSome = true ↔
      (check_file_exists (fun _ => FileKind.regular) "a.mp4" = true ∧
       (SpawnResult.ok 0 "" "").isExn = false)) :=
  c5_result_shape_amended (fun _ => FileKind.regular) "a.mp4" "b.mp4" (SpawnResult.ok 0 "" "")

/-- Witness for C7 at a concrete clean exit and a concrete spawn exception. -/
theorem c7_run_ffmpeg_command_outcomes_witness :
    run_ffmpeg_command (SpawnResult.ok 0 "out" "err") =
      ⟨some true, none, none, none, some "out", some "err"⟩ ∧
    run_ffmpeg_command (SpawnResult.exn "boom") =
      ⟨some false, none, none, some "执行 FFmpeg 命令时出现异常: boom", none, none⟩ :=
  ⟨by
    have h := c7_run_ffmpeg_command_outcomes.1 0 "out" "err"
    simpa using h,
   c7_run_ffmpeg_command_outcomes.2.1 "boom"⟩
